import Mathlib

/-!
Verification of the OpenImageIO color-management subsystem
(src/libOpenImageIO/color_ocio.cpp) against its natural-language
specification.  The C++ data model and operations are shallowly embedded
as executable Lean definitions; machine floats are modelled over the
rationals with the float-min guard value kept explicit.
-/

set_option autoImplicit false

namespace OIIOColor

/-- ASCII lower-casing of one character, modelling the per-character
tolower used by Strutil::iequals. -/
def lowerChar (c : Char) : Char :=
  if c.isUpper then Char.ofNat (c.toNat + 32) else c

/-- Case-insensitive string equality, modelling Strutil::iequals. -/
def ieq (a b : String) : Bool :=
  a.data.map lowerChar == b.data.map lowerChar

/-! ## ColorProcCacheKey (color_ocio.cpp lines 580-644)

The cache key is a ten-field value object.  The C++ constructor takes all
ten fields as parameters, but its member-initializer list omits the
`display` and `view` members, which are therefore default-initialized to
the empty string, while the precomputed hash is built from the constructor
parameters (including the `display` and `view` parameters).  The embedding
reproduces this faithfully. -/

structure ColorProcCacheKey where
  inputColorSpace : String
  outputColorSpace : String
  context_key : String
  context_value : String
  looks : String
  display : String
  view : String
  file : String
  namedtransform : String
  inverse : Bool
  hash : Nat
  deriving DecidableEq

/-- The ColorProcCacheKey constructor.  `h` abstracts ustring::hash.
The `display` and `view` members are left at the empty default (they are
missing from the C++ member-initializer list); the hash is computed from
the constructor parameters exactly as in the source. -/
def mkColorProcCacheKey (h : String → Nat)
    (inp outp key val looks display view file namedtransform : String)
    (inverse : Bool) : ColorProcCacheKey :=
  { inputColorSpace := inp
    outputColorSpace := outp
    context_key := key
    context_value := val
    looks := looks
    display := ""
    view := ""
    file := file
    namedtransform := namedtransform
    inverse := inverse
    hash := h inp + 14033 * h outp + 823 * h key + 28411 * h val
            + 1741 * (h looks + h display + h view + h file + h namedtransform)
            + (if inverse then 6421 else 0) }

/-- Cache key built by ColorConfig::createColorProcessor
(color_ocio.cpp lines 2294-2295): only input/output space and context are
supplied; the remaining constructor parameters take their defaults. -/
def colorProcessorKey (h : String → Nat)
    (inputColorSpace outputColorSpace context_key context_value : String) :
    ColorProcCacheKey :=
  mkColorProcCacheKey h inputColorSpace outputColorSpace context_key
    context_value "" "" "" "" "" false

/-- Cache key built by ColorConfig::createFileTransform
(color_ocio.cpp lines 2629-2634).  Note: the source passes an empty
ustring in the `file` parameter position and the file path `name` in the
`namedtransform` parameter position. -/
def fileTransformKey (h : String → Nat) (name : String) (inverse : Bool) :
    ColorProcCacheKey :=
  mkColorProcCacheKey h "" "" "" "" "" "" "" "" name inverse

/-- Cache key built by ColorConfig::createNamedTransform
(color_ocio.cpp lines 2691-2695): context key/value are supplied, the
transform name goes in the `namedtransform` position, `file` is empty. -/
def namedTransformKey (h : String → Nat) (name : String) (inverse : Bool)
    (context_key context_value : String) : ColorProcCacheKey :=
  mkColorProcCacheKey h "" "" context_key context_value "" "" "" "" name inverse

/-! ## ProcessorCache (ColorConfig::Impl, color_ocio.cpp lines 778-809)

Compiled processor handles are modelled by numeric object identities; an
empty handle is `none`.  The robin_map is modelled as an association list
with unique keys; lookups return the first (only) binding. -/

/-- A processor handle: `none` is the empty handle, `some i` wraps the
compiled processor object with identity `i`. -/
abbrev ColorProcessorHandle := Option Nat

/-- The processor cache map. -/
abbrev ColorProcessorMap := List (ColorProcCacheKey × Nat)

/-- ColorConfig::Impl::findproc: search for a matching processor, return
it if found, otherwise return an empty handle. -/
def findproc (m : ColorProcessorMap) (key : ColorProcCacheKey) :
    ColorProcessorHandle :=
  match m.find? (fun kv => kv.1 = key) with
  | none => none
  | some kv => some kv.2

/-- ColorConfig::Impl::addproc: if the supplied handle is empty, just
return it (the cache is not touched).  Otherwise, if an equivalent key is
already in the table, discard the new handle and return the installed one;
else install and return the new handle. -/
def addproc (m : ColorProcessorMap) (key : ColorProcCacheKey)
    (handle : ColorProcessorHandle) : ColorProcessorMap × ColorProcessorHandle :=
  match handle with
  | none => (m, none)
  | some h =>
    match m.find? (fun kv => kv.1 = key) with
    | none => (m ++ [(key, h)], some h)
    | some kv => (m, some kv.2)

/-- Number of cache entries bound to a given key. -/
def keyCount (m : ColorProcessorMap) (key : ColorProcCacheKey) : Nat :=
  (m.filter (fun kv => kv.1 = key)).length

/-- Outcome of one external-engine compilation request: success (with the
is-no-op flag of the resulting processor) or failure with an error
message, mirroring the try/catch around config_->getProcessor. -/
inductive CompileResult where
  | ok (isNoOp : Bool)
  | fail (msg : String)
  deriving DecidableEq

/-- The mutable state of ColorConfig::Impl relevant to processor creation:
the cache, the sticky error slot, and an instrumentation counter of
engine compilation attempts (fresh processor objects are numbered by this
counter). -/
structure ImplState where
  cache : ColorProcessorMap
  errorSlot : String
  compileCount : Nat
  deriving DecidableEq

/-- The initial state of a freshly constructed config. -/
def ImplState.initial : ImplState :=
  { cache := [], errorSlot := "", compileCount := 0 }

/-- ColorConfig::createColorProcessor (color_ocio.cpp lines 2285-2423),
for a config with a live engine.  `engine` is the outcome the external
engine produces for this request (the same request always produces the
same outcome, but a fresh processor object on every successful compile).
On a cache hit the installed handle is returned at once.  Otherwise the
engine is consulted: on success the error slot is cleared, a handle is
wrapped and published through addproc; on failure the pending error is
recorded in the sticky slot and the empty handle is passed to addproc,
which returns it without caching. -/
def createColorProcessor (engine : CompileResult) (st : ImplState)
    (key : ColorProcCacheKey) : ImplState × ColorProcessorHandle :=
  match findproc st.cache key with
  | some h => (st, some h)
  | none =>
    let st1 : ImplState := { st with compileCount := st.compileCount + 1 }
    match engine with
    | CompileResult.fail msg =>
      let st2 : ImplState := { st1 with errorSlot := msg }
      let (cache2, ret) := addproc st2.cache key none
      ({ st2 with cache := cache2 }, ret)
    | CompileResult.ok _ =>
      let freshId := st1.compileCount
      let st2 : ImplState := { st1 with errorSlot := "" }
      let (cache2, ret) := addproc st2.cache key (some freshId)
      ({ st2 with cache := cache2 }, ret)

/-! ## ColorSpaceRegistry: CSInfo flags and the fallback inventory
(color_ocio.cpp lines 668-707 and 948-997) -/

namespace CSInfo

/-- Flag bit: any color space with a linear transfer function. -/
def is_linear_response : Nat := 1

/-- Flag bit: equivalent to scene_linear. -/
def is_scene_linear : Nat := 2

/-- Flag bit: sRGB (primaries and transfer function). -/
def is_srgb : Nat := 4

/-- Flag bit: sRGB/Rec709 primaries, linear response. -/
def is_lin_srgb : Nat := 8

/-- Flag bit: ACEScg. -/
def is_ACEScg : Nat := 16

/-- Flag bit: Rec709 primaries and transfer function. -/
def is_Rec709 : Nat := 32

/-- The union of the four well-known reference-space bits. -/
def is_known : Nat := is_srgb ||| is_lin_srgb ||| is_ACEScg ||| is_Rec709

end CSInfo

/-- A registry entry as consulted by ColorConfig::equivalent: its
classification flag bits and its canonical name (empty until assigned). -/
structure CSInfoEntry where
  flags : Nat
  canonical : String
  deriving DecidableEq

/-- The flag value shared by the linear entries of the fallback
inventory (color_ocio.cpp lines 981-982). -/
def linflags : Nat :=
  CSInfo.is_linear_response ||| CSInfo.is_scene_linear ||| CSInfo.is_lin_srgb

/-- The fallback inventory registered by ColorConfig::Impl::inventory when
no usable engine configuration is present (color_ocio.cpp lines 983-993):
each entry is (name, index, initial flags) in registration order. -/
def fallbackInventory : List (String × Nat × Nat) :=
  [ ("linear", 0, linflags)
  , ("scene_linear", 0, linflags)
  , ("default", 0, linflags)
  , ("rgb", 0, linflags)
  , ("RGB", 0, linflags)
  , ("lin_rec709_scene", 0, linflags)
  , ("lin_srgb", 0, linflags)
  , ("lin_rec709", 0, linflags)
  , ("srgb_rec709_scene", 1, CSInfo.is_srgb)
  , ("sRGB", 1, CSInfo.is_srgb)
  , ("Rec709", 2, CSInfo.is_Rec709) ]

/-- ColorConfig::getNumColorSpaces returns the size of the registry
(color_ocio.cpp lines 811 and 1526-1530); in the fallback state the
registry holds exactly the fallback inventory. -/
def getNumColorSpacesFallback : Nat :=
  fallbackInventory.length

/-! ## NameResolver: ColorConfig::Impl::resolve
(color_ocio.cpp lines 2061-2107)

The function first calls config_->getColorSpace(name) without checking
config_ for null.  In the fallback-inventory state config_ has been reset
(color_ocio.cpp line 974), so the call dereferences a null pointer; the
embedding returns `none` for that undefined behavior, and `some r` when
the function returns the string `r`. -/

/-- The configuration-dependent inputs of resolve: the live config's
color-space lookup (absent when config_ is null), the interop identities
lookup combined with IdentifyBuiltinColorSpace (returning the equivalent
live space, `none` on absence, exception, or null/empty result), and the
five classification alias slots. -/
structure ResolveState where
  config : Option (String → Option String)
  identifyViaInterop : String → Option String
  srgb_alias : String
  lin_srgb_alias : String
  ACEScg_alias : String
  scene_linear_alias : String
  Rec709_alias : String

/-- ColorConfig::Impl::resolve.  Returns `none` exactly when the source
dereferences the null config_ (undefined behavior); otherwise `some` of
the returned name. -/
def resolveImpl (st : ResolveState) (name : String) : Option String :=
  match st.config with
  | none => none
  | some getColorSpace =>
    match getColorSpace name with
    | some csname => some csname
    | none =>
      match st.identifyViaInterop name with
      | some equivalent_cs => some equivalent_cs
      | none =>
        if (ieq name "sRGB" || ieq name "srgb_rec709_scene")
            && !(st.srgb_alias == "") then
          some st.srgb_alias
        else if (ieq name "lin_srgb" || ieq name "lin_rec709"
            || ieq name "lin_rec709_scene" || ieq name "linear")
            && !(st.lin_srgb_alias == "") then
          some st.lin_srgb_alias
        else if (ieq name "ACEScg" || ieq name "lin_ap1_scene")
            && !(st.ACEScg_alias == "") then
          some st.ACEScg_alias
        else if ieq name "scene_linear"
            && !(st.scene_linear_alias == "") then
          some st.scene_linear_alias
        else if ieq name "Rec709" && !(st.Rec709_alias == "") then
          some st.Rec709_alias
        else
          some name

/-- The resolve-relevant state after constructing a ColorConfig with the
external engine disabled: inventory() resets config_ to null and
registers the fallback inventory, whose classification assigns
srgb_alias = "srgb_rec709_scene", lin_srgb_alias = "linear" and
Rec709_alias = "Rec709" (first entry of each class in registration
order); no engine means no interop identification. -/
def fallbackResolveState : ResolveState :=
  { config := none
    identifyViaInterop := fun _ => none
    srgb_alias := "srgb_rec709_scene"
    lin_srgb_alias := "linear"
    ACEScg_alias := ""
    scene_linear_alias := ""
    Rec709_alias := "Rec709" }

/-! ## ColorConfig::equivalent (color_ocio.cpp lines 2111-2148) -/

/-- ColorConfig::equivalent, parameterized by the resolution function and
the registry lookup of the owning config.  Follows the source: empty
inputs never match; case-insensitive name equality matches; then the
resolved names are compared; then the entries' flags (the guard masks the
four well-known bits but the equality test compares the FULL flag
values); then nonempty canonical names are compared. -/
def equivalentFn (resolve : String → String) (find : String → Option CSInfoEntry)
    (color_space1 color_space2 : String) : Bool :=
  if color_space1 == "" || color_space2 == "" then
    false
  else if ieq color_space1 color_space2 then
    true
  else
    let r1 := resolve color_space1
    let r2 := resolve color_space2
    if r1 == "" || r2 == "" then
      false
    else if ieq r1 r2 then
      true
    else
      match find r1, find r2 with
      | some csi1, some csi2 =>
        let mask := CSInfo.is_srgb ||| CSInfo.is_lin_srgb
                    ||| CSInfo.is_ACEScg ||| CSInfo.is_Rec709
        let flags1 := csi1.flags &&& mask
        let flags2 := csi2.flags &&& mask
        if (flags1 ||| flags2) ≠ 0 && csi1.flags == csi2.flags then
          true
        else if !(csi1.canonical == "") && !(csi2.canonical == "")
            && ieq csi1.canonical csi2.canonical then
          true
        else
          false
      | _, _ => false

/-! ## PixelKernel: unpremultiply / premultiply bracketing
(color_ocio.cpp lines 3163-3187 and 3238-3266)

Pixel channel values are modelled over the rationals.  The guard value is
std::numeric_limits of float min, the smallest positive normalized
single-precision value, which is exactly 2 to the power -126. -/

/-- The guard threshold fltmin, the exact value of the smallest positive
normalized single-precision float. -/
def fltmin : ℚ := 1 / 2 ^ 126

/-- One RGBA pixel of the scanline temporary. -/
structure Pix where
  r : ℚ
  g : ℚ
  b : ℚ
  a : ℚ
  deriving DecidableEq

/-- The unpremultiply step of the generic kernel colorconvert_impl
(lines 3165-3172): save the alpha, replace it by 1 when it is below
fltmin, and divide the pixel componentwise by (a, a, a, 1).  Returns the
updated pixel and the saved (pre-division) alpha. -/
def unpremultStep (p : Pix) : Pix × ℚ :=
  let saved := p.a
  let a := if p.a ≥ fltmin then p.a else 1
  ({ r := p.r / a, g := p.g / a, b := p.b / a, a := p.a / 1 }, saved)

/-- The matching premultiply step (lines 3181-3187): with the same guard
applied to the saved alpha, multiply back by (a, a, a, 1). -/
def premultStep (p : Pix) (saved : ℚ) : Pix :=
  let a := if saved ≥ fltmin then saved else 1
  { r := p.r * a, g := p.g * a, b := p.b * a, a := p.a * 1 }

/-- The unpremultiply step of the specialized float-RGBA kernel
colorconvert_impl_float_rgba (lines 3240-3249): identical except that an
alpha exactly equal to 1 skips the division. -/
def unpremultStepRGBA (p : Pix) : Pix × ℚ :=
  let saved := p.a
  let a := if p.a ≥ fltmin then p.a else 1
  if a = 1 then (p, saved)
  else ({ r := p.r / a, g := p.g / a, b := p.b / a, a := p.a / 1 }, saved)

/-! ## PixelKernel: scanline store phase of the generic kernel
(color_ocio.cpp lines 3189-3203) -/

/-- The store phase of colorconvert_impl for one pixel.  Channels below
channelsToCopy receive the transformed values; when destination and
source are distinct buffers, the leftover channels up to chend are
written 0.5 + 10 times the source value; all remaining destination
channels keep their prior contents (for an in-place call the prior
contents are the source values, since the buffers alias). -/
def kernelStorePixel (channelsToCopy chend : Nat) (sameBuffer : Bool)
    (transformed srcPix dstOld : Nat → ℚ) (c : Nat) : ℚ :=
  if c < channelsToCopy then transformed c
  else if c < chend && !sameBuffer then 1 / 2 + 10 * srcPix c
  else dstOld c

/-! ## ImageBufAlgo::colorconvert dispatch
(color_ocio.cpp lines 3277-3324) -/

/-- A compiled processor as seen by the application entry point: its
is-no-op report and the buffer transform it applies. -/
structure Proc where
  isNoOp : Bool
  applyBuf : List ℚ → List ℚ

/-- Modelled from the spec: ImageBufAlgo::copy (defined outside this
translation unit) performs a plain exact copy of the source buffer into
the destination. -/
def modelCopy (src : List ℚ) : List ℚ := src

/-- ImageBufAlgo::colorconvert(dst, src, processor, ...) control flow: a
null processor is a local error; an identity processor applied in place
returns success before any work, leaving the buffer untouched; an
identity processor with distinct buffers performs a plain copy of the
source; otherwise the pixel kernel runs.  Returns the resulting
destination buffer and the success flag. -/
def colorconvertDispatch (processor : Option Proc) (sameBuffer : Bool)
    (dst src : List ℚ) : List ℚ × Bool :=
  match processor with
  | none => (dst, false)
  | some p =>
    if p.isNoOp && sameBuffer then (dst, true)
    else if p.isNoOp then (modelCopy src, true)
    else (p.applyBuf src, true)

/-! ## InteropIdentityTable and CICP
(color_ocio.cpp lines 2830-2942 and 2945-3024) -/

/-- One row of the static color_interop_ids table: the portable id and,
when has_cicp is set, the 4-integer CICP code (primaries, transfer,
matrix, range). -/
structure ColorInteropID where
  interop_id : String
  cicp : List Int
  has_cicp : Bool
  deriving DecidableEq

/-- A table row without a CICP code (the single-argument constructor,
which stores the all-zero code and has_cicp = false). -/
def noCicp (id : String) : ColorInteropID :=
  { interop_id := id, cicp := [0, 0, 0, 0], has_cicp := false }

/-- A table row with a CICP code; the range component is always Full = 1
(the three-code constructor, lines 2871-2878). -/
def withCicp (id : String) (primaries transfer matrix : Int) : ColorInteropID :=
  { interop_id := id, cicp := [primaries, transfer, matrix, 1], has_cicp := true }

/-- The static color_interop_ids table (color_ocio.cpp lines 2887-2942),
in source order, with the enum codes substituted: Rec709 primaries = 1,
Rec2020 = 9, XYZD65 = 10, P3D65 = 12, Unspecified = 2; transfer BT709 = 1,
Gamma22 = 4, Linear = 8, sRGB = 13, PQ = 16, Gamma26 = 17, HLG = 18,
Unspecified = 2; matrix BT709 = 1, Rec2020_NCL = 9, Rec2020_CL = 10,
Unspecified = 2. -/
def color_interop_ids : List ColorInteropID :=
  [ withCicp "srgb_rec709_display" 1 13 1
  , withCicp "g24_rec709_display" 1 1 1
  , withCicp "srgb_p3d65_display" 12 13 1
  , withCicp "srgbe_p3d65_display" 12 13 1
  , withCicp "pq_p3d65_display" 12 16 9
  , withCicp "pq_rec2020_display" 9 16 9
  , withCicp "hlg_rec2020_display" 9 18 9
  , withCicp "g22_rec709_display" 1 4 1
  , noCicp "g22_adobergb_display"
  , withCicp "g26_p3d65_display" 12 17 1
  , withCicp "g26_xyzd65_display" 10 17 2
  , withCicp "pq_xyzd65_display" 10 16 2
  , noCicp "lin_ap1_scene"
  , noCicp "lin_ap0_scene"
  , withCicp "lin_rec709_scene" 1 8 1
  , withCicp "lin_p3d65_scene" 12 8 1
  , withCicp "lin_rec2020_scene" 9 8 10
  , noCicp "lin_adobergb_scene"
  , withCicp "lin_ciexyzd65_scene" 10 8 2
  , withCicp "srgb_rec709_scene" 1 13 1
  , withCicp "g22_rec709_scene" 1 4 1
  , noCicp "g18_rec709_scene"
  , noCicp "srgb_ap1_scene"
  , noCicp "g22_ap1_scene"
  , withCicp "srgb_p3d65_scene" 12 13 1
  , noCicp "g22_adobergb_scene"
  , noCicp "data"
  , withCicp "unknown" 2 2 2 ]

/-- The configuration-dependent inputs of get_color_interop_id: whether
the live config defines the queried name, and the interop identities
config's color-space names. -/
structure CicpState where
  configLookup : String → Option String
  interopNames : List String

/-- ColorConfig::get_color_interop_id (non-strict), restricted to the
path exercised when the queried name is not a live config color space
(lines 2948-2958): empty input returns empty; a name the live config
does not know is looked up in the interop identities config and, when
found there, returned verbatim (each interop space's name equals its
id). -/
def getColorInteropId (st : CicpState) (colorspace : String) : String :=
  if colorspace == "" then ""
  else
    match st.configLookup colorspace with
    | some _ => ""
    | none =>
      if st.interopNames.contains colorspace then colorspace else ""

/-- ColorConfig::get_cicp (lines 3012-3024): compute the interop id, then
return the stored 4-integer code of the first table row with that id and
has_cicp set; the empty span (modelled `none`) when the id is empty or
carries no code. -/
def get_cicp (st : CicpState) (colorspace : String) : Option (List Int) :=
  let interop_id := getColorInteropId st colorspace
  if !(interop_id == "") then
    match color_interop_ids.find?
        (fun interop => interop.has_cicp && interop_id == interop.interop_id) with
    | some interop => some interop.cicp
    | none => none
  else
    none

/-- Color-space names of the interop identities reference config
(the kInteropIdentitiesConfig document, color_ocio.cpp lines 94-533), in
document order. -/
def interopConfigNames : List String :=
  [ "lin_ap0_scene", "lin_ap1_scene", "lin_rec709_scene", "lin_p3d65_scene"
  , "lin_rec2020_scene", "lin_adobergb_scene", "lin_ciexyzd65_scene"
  , "ocio:acescc_ap1_scene", "ocio:acescct_ap1_scene", "ocio:adx10_apd_scene"
  , "ocio:adx16_apd_scene", "ocio:lin_applewg_scene"
  , "ocio:arrilogc3_awg3_scene", "ocio:lin_awg3_scene"
  , "ocio:arrilogc4_awg4_scene", "ocio:lin_awg4_scene"
  , "ocio:bmdfilm5_wg5_scene", "ocio:lin_bmdwg5_scene"
  , "ocio:davinci_dwg_scene", "ocio:lin_dwg_scene"
  , "ocio:canonlog3_cgamutd55_scene", "ocio:canonlog2_cgamutd55_scene"
  , "ocio:lin_cgamutd55_scene", "ocio:djilog_dgamut_scene"
  , "ocio:lin_dgamut_scene", "ocio:vlog_vgamut_scene"
  , "ocio:lin_vgamut_scene", "ocio:redlog3g10_rwg_scene"
  , "ocio:lin_rwg_scene", "ocio:slog3_sgamut3_scene"
  , "ocio:slog3_sgamut3cine_scene", "ocio:slog3_sgamut3venice_scene"
  , "ocio:slog3_sgamut3cinevenice_scene", "ocio:lin_sgamut3_scene"
  , "ocio:lin_sgamut3cine_scene", "ocio:lin_sgamut3venice_scene"
  , "ocio:lin_sgamut3cinevenice_scene", "g18_rec709_scene"
  , "g22_rec709_scene", "srgb_rec709_scene", "srgb_ap1_scene"
  , "g22_ap1_scene", "srgb_p3d65_scene", "g22_adobergb_scene"
  , "ocio:g24_rec709_scene", "ocio:itu709_rec709_scene"
  , "lin_ciexyzd65_display", "lin_rec709_display", "lin_p3d65_display"
  , "lin_rec2020_display", "srgb_rec709_display", "g24_rec709_display"
  , "srgb_p3d65_display", "srgbe_p3d65_display", "pq_p3d65_display"
  , "pq_rec2020_display", "hlg_rec2020_display", "g22_rec709_display"
  , "g22_adobergb_display", "g26_p3d65_display", "g26_xyzd65_display"
  , "pq_xyzd65_display", "data" ]

/-- A CicpState in which the queried display space is not defined by the
live configuration (the situation of the default builtin config) and the
interop identities config holds its document names. -/
def defaultCicpState : CicpState :=
  { configLookup := fun _ => none
    interopNames := interopConfigNames }

/-! ## Shared helper lemmas -/

/-- findproc returns the empty handle exactly when no binding for the key
is present. -/
theorem findproc_eq_none_iff (m : ColorProcessorMap) (key : ColorProcCacheKey) :
    findproc m key = none ↔ m.find? (fun kv => kv.1 = key) = none := by
  unfold findproc
  cases h : m.find? (fun kv => kv.1 = key) <;> simp

/-- A cache miss means no entry of the cache is bound to the key. -/
theorem keyCount_eq_zero_of_findproc_none (m : ColorProcessorMap)
    (key : ColorProcCacheKey) (h : findproc m key = none) :
    keyCount m key = 0 := by
  rw [findproc_eq_none_iff] at h
  rw [List.find?_eq_none] at h
  unfold keyCount
  rw [List.length_eq_zero, List.filter_eq_nil_iff]
  exact h

/-! ## Claim theorems -/

/-- Claim C1, counterexample: compiling an unknown color-space request
records the error and returns the empty handle, but — contrary to the
claim — the empty handle is NOT installed in the cache (the cache stays
empty), and a second identical request runs a second engine compilation
(the compile counter reaches 2 rather than staying at 1). -/
theorem c1_counterexample :
    (createColorProcessor (CompileResult.fail "unknown color space")
        ImplState.initial
        (colorProcessorKey String.length "foo" "bar" "" "")).2 = none
    ∧ (createColorProcessor (CompileResult.fail "unknown color space")
        ImplState.initial
        (colorProcessorKey String.length "foo" "bar" "" "")).1.cache = []
    ∧ (createColorProcessor (CompileResult.fail "unknown color space")
        ((createColorProcessor (CompileResult.fail "unknown color space")
            ImplState.initial
            (colorProcessorKey String.length "foo" "bar" "" "")).1)
        (colorProcessorKey String.length "foo" "bar" "" "")).1.compileCount
      = 2 := by
  refine ⟨rfl, rfl, rfl⟩

/-- Claim C1 (amended): when the external engine fails to compile a
request, the triggering error message is recorded in the sticky error
slot and an empty handle is returned, but the empty handle is NOT cached
under the request's key (the cache is unchanged), so a subsequent
identical request re-attempts engine compilation. -/
theorem c1_amended (msg : String) (st : ImplState) (key : ColorProcCacheKey)
    (hmiss : findproc st.cache key = none) :
    (createColorProcessor (CompileResult.fail msg) st key).2 = none
    ∧ (createColorProcessor (CompileResult.fail msg) st key).1.errorSlot = msg
    ∧ (createColorProcessor (CompileResult.fail msg) st key).1.cache = st.cache
    ∧ (createColorProcessor (CompileResult.fail msg)
        ((createColorProcessor (CompileResult.fail msg) st key).1)
        key).1.compileCount = st.compileCount + 2 := by
  refine ⟨?_, ?_, ?_, ?_⟩ <;>
    simp [createColorProcessor, hmiss, addproc]

/-- Claim C1 amended, witness at a concrete failing request. -/
theorem c1_amended_witness :
    (createColorProcessor (CompileResult.fail "no such space")
        ImplState.initial
        (colorProcessorKey String.length "a" "b" "" "")).2 = none
    ∧ (createColorProcessor (CompileResult.fail "no such space")
        ImplState.initial
        (colorProcessorKey String.length "a" "b" "" "")).1.errorSlot
      = "no such space"
    ∧ (createColorProcessor (CompileResult.fail "no such space")
        ImplState.initial
        (colorProcessorKey String.length "a" "b" "" "")).1.cache
      = ImplState.initial.cache
    ∧ (createColorProcessor (CompileResult.fail "no such space")
        ((createColorProcessor (CompileResult.fail "no such space")
            ImplState.initial
            (colorProcessorKey String.length "a" "b" "" "")).1)
        (colorProcessorKey String.length "a" "b" "" "")).1.compileCount
      = ImplState.initial.compileCount + 2 :=
  c1_amended "no such space" ImplState.initial
    (colorProcessorKey String.length "a" "b" "" "") rfl

/-- Claim C2: the processor cache holds at most one entry per distinct
key.  From a cache miss (with the at-most-one invariant holding), a first
call installs a freshly compiled processor; the cache then has exactly
one entry for the key and the invariant is preserved; a second identical
sequential request returns the very same handle; and addproc called with
any newly supplied handle for the installed key discards it, leaving the
cache unchanged and returning the first-installed processor. -/
theorem c2_cache_idempotence (st : ImplState) (key : ColorProcCacheKey)
    (noop : Bool)
    (hmiss : findproc st.cache key = none)
    (huniq : ∀ k, keyCount st.cache k ≤ 1) :
    (∃ i, (createColorProcessor (CompileResult.ok noop) st key).2 = some i)
    ∧ (createColorProcessor (CompileResult.ok noop)
        ((createColorProcessor (CompileResult.ok noop) st key).1) key).2
      = (createColorProcessor (CompileResult.ok noop) st key).2
    ∧ keyCount (createColorProcessor (CompileResult.ok noop) st key).1.cache
        key = 1
    ∧ (∀ k, keyCount
        (createColorProcessor (CompileResult.ok noop) st key).1.cache k ≤ 1)
    ∧ (∀ h2, addproc
        (createColorProcessor (CompileResult.ok noop) st key).1.cache key
        (some h2)
      = ((createColorProcessor (CompileResult.ok noop) st key).1.cache,
         (createColorProcessor (CompileResult.ok noop) st key).2)) := by
  have hfind : st.cache.find? (fun kv => kv.1 = key) = none :=
    (findproc_eq_none_iff _ _).mp hmiss
  have hstep : createColorProcessor (CompileResult.ok noop) st key
      = ({ cache := st.cache ++ [(key, st.compileCount + 1)], errorSlot := "",
           compileCount := st.compileCount + 1 }, some (st.compileCount + 1)) := by
    simp [createColorProcessor, hmiss, addproc, hfind]
  have hfind2 : (st.cache ++ [(key, st.compileCount + 1)]).find?
      (fun kv => kv.1 = key) = some (key, st.compileCount + 1) := by
    rw [List.find?_append, hfind]
    simp [List.find?]
  have hcount0 : keyCount st.cache key = 0 :=
    keyCount_eq_zero_of_findproc_none st.cache key hmiss
  rw [hstep]
  refine ⟨⟨st.compileCount + 1, rfl⟩, ?_, ?_, ?_, ?_⟩
  · simp [createColorProcessor, findproc, hfind2]
  · unfold keyCount at hcount0 ⊢
    rw [List.filter_append, List.length_append, hcount0]
    simp
  · intro k
    by_cases hk : k = key
    · subst hk
      unfold keyCount at hcount0 ⊢
      rw [List.filter_append, List.length_append, hcount0]
      simp
    · have := huniq k
      unfold keyCount at this ⊢
      rw [List.filter_append, List.length_append]
      have hkey : key ≠ k := fun h => hk h.symm
      have hnil : List.filter (fun kv => decide (kv.1 = k))
          [(key, st.compileCount + 1)] = [] := by
        simp [List.filter, hkey]
      rw [hnil]
      simpa using this
  · intro h2
    simp [addproc, hfind2]

/-- Claim C2, witness: from the empty cache, a concrete conversion
request compiled twice sequentially. -/
theorem c2_cache_idempotence_witness :
    (∃ i, (createColorProcessor (CompileResult.ok false) ImplState.initial
        (colorProcessorKey String.length "srgb_rec709_scene"
          "lin_rec709_scene" "" "")).2 = some i)
    ∧ (createColorProcessor (CompileResult.ok false)
        ((createColorProcessor (CompileResult.ok false) ImplState.initial
          (colorProcessorKey String.length "srgb_rec709_scene"
            "lin_rec709_scene" "" "")).1)
        (colorProcessorKey String.length "srgb_rec709_scene"
          "lin_rec709_scene" "" "")).2
      = (createColorProcessor (CompileResult.ok false) ImplState.initial
        (colorProcessorKey String.length "srgb_rec709_scene"
          "lin_rec709_scene" "" "")).2
    ∧ keyCount (createColorProcessor (CompileResult.ok false) ImplState.initial
        (colorProcessorKey String.length "srgb_rec709_scene"
          "lin_rec709_scene" "" "")).1.cache
        (colorProcessorKey String.length "srgb_rec709_scene"
          "lin_rec709_scene" "" "") = 1
    ∧ (∀ k, keyCount (createColorProcessor (CompileResult.ok false)
        ImplState.initial
        (colorProcessorKey String.length "srgb_rec709_scene"
          "lin_rec709_scene" "" "")).1.cache k ≤ 1)
    ∧ (∀ h2, addproc (createColorProcessor (CompileResult.ok false)
        ImplState.initial
        (colorProcessorKey String.length "srgb_rec709_scene"
          "lin_rec709_scene" "" "")).1.cache
        (colorProcessorKey String.length "srgb_rec709_scene"
          "lin_rec709_scene" "" "") (some h2)
      = ((createColorProcessor (CompileResult.ok false) ImplState.initial
          (colorProcessorKey String.length "srgb_rec709_scene"
            "lin_rec709_scene" "" "")).1.cache,
         (createColorProcessor (CompileResult.ok false) ImplState.initial
          (colorProcessorKey String.length "srgb_rec709_scene"
            "lin_rec709_scene" "" "")).2)) :=
  c2_cache_idempotence ImplState.initial
    (colorProcessorKey String.length "srgb_rec709_scene"
      "lin_rec709_scene" "" "") false rfl
    (by intro k; simp [keyCount, ImplState.initial])

/-- Claim C3: in the no-engine / fallback-inventory configuration state
(config_ reset to null by inventory), resolve("linear") does not complete
and return a string: the very first statement dereferences the null
config_ pointer (modelled by the `none` result), contradicting the
claimed totality of resolution, even though "linear" is non-empty and is
itself a registered fallback name. -/
theorem c3_null_config_eval :
    resolveImpl fallbackResolveState "linear" = none
    ∧ "linear" ≠ "" := by
  exact ⟨rfl, by decide⟩

/-- Claim C4: for every file path, inverse flag and hash function, the
cache key built by createFileTransform is EQUAL to the key built by
createNamedTransform for the same name with empty context — the file
path is passed in the namedtransform field position while the file field
is left empty, so the two request kinds collide on identical keys,
contrary to the claimed cross-kind distinctness. -/
theorem c4_key_collision (h : String → Nat) (path : String) (inverse : Bool) :
    fileTransformKey h path inverse
      = namedTransformKey h path inverse "" "" := by
  rfl

/-- Claim C5, counterexample: the fallback inventory registered when the
external engine is unavailable does not have 10 entries, so
getNumColorSpaces() does not return 10 in that state. -/
theorem c5_counterexample :
    getNumColorSpacesFallback ≠ 10 := by
  decide

/-- Claim C5 (amended): when a ColorConfig is constructed with no usable
configuration (external engine disabled), the fallback inventory is
registered and getNumColorSpaces() returns exactly 11 (the source
registers linear, scene_linear, default, rgb, RGB, lin_rec709_scene,
lin_srgb, lin_rec709, srgb_rec709_scene, sRGB and Rec709). -/
theorem c5_amended :
    getNumColorSpacesFallback = 11 := by
  decide

/-- Claim C6, counterexample: two distinct non-empty names whose registry
entries carry masked flags that are equal and nonzero (both sRGB-class,
masked value 4) but whose FULL flag words differ (4 versus
4 + linear-response = 5, with empty canonical names) are reported NOT
equivalent: the source compares the full flag values, so equality of the
masked flags alone does not suffice. -/
theorem c6_counterexample :
    (let find : String → Option CSInfoEntry := fun n =>
      if n = "foo" then some { flags := 4, canonical := "" }
      else if n = "bar" then some { flags := 5, canonical := "" }
      else none
    ("foo" : String) ≠ ""
    ∧ ("bar" : String) ≠ ""
    ∧ ieq "foo" "bar" = false
    ∧ find "foo" = some { flags := 4, canonical := "" }
    ∧ find "bar" = some { flags := 5, canonical := "" }
    ∧ (4 &&& CSInfo.is_known) = (5 &&& CSInfo.is_known)
    ∧ (4 &&& CSInfo.is_known) ≠ 0
    ∧ equivalentFn (fun s => s) find "foo" "bar" = false) := by
  decide

/-- Claim C6 (amended): equal and nonzero masked classification flags
imply that equivalent(a, b) returns true only together with equality of
the entries' FULL flag words: whenever both resolved names have entries
whose complete flag values coincide and whose masked well-known bits are
nonzero, equivalence holds (other flag bits must match as well; when full
flags differ the comparison falls back to the canonical names). -/
theorem c6_amended (resolve : String → String)
    (find : String → Option CSInfoEntry) (a b : String) (e1 e2 : CSInfoEntry)
    (ha : a ≠ "") (hb : b ≠ "")
    (hra : resolve a ≠ "") (hrb : resolve b ≠ "")
    (hfa : find (resolve a) = some e1) (hfb : find (resolve b) = some e2)
    (hflags : e1.flags = e2.flags)
    (hmask : e1.flags &&& CSInfo.is_known ≠ 0) :
    equivalentFn resolve find a b = true := by
  have ha' : (a == "") = false := by simpa using ha
  have hb' : (b == "") = false := by simpa using hb
  have hra' : (resolve a == "") = false := by simpa using hra
  have hrb' : (resolve b == "") = false := by simpa using hrb
  have hor : e1.flags &&& (CSInfo.is_srgb ||| CSInfo.is_lin_srgb
      ||| CSInfo.is_ACEScg ||| CSInfo.is_Rec709) ≠ 0 := by
    simpa [CSInfo.is_known] using hmask
  by_cases hab : ieq a b = true
  · simp [equivalentFn, ha', hb', hab]
  · by_cases hr : ieq (resolve a) (resolve b) = true
    · simp [equivalentFn, ha', hb', hab, hr, hra', hrb']
    · simp [equivalentFn, ha', hb', hab, hr, hra', hrb', hfa, hfb,
        ← hflags, Nat.or_self, hor]

/-- Claim C6 amended, witness: two entries that share the full flag word
9 (lin-sRGB plus linear-response) with nonzero masked bits are
equivalent even though their canonical strings differ. -/
theorem c6_amended_witness :
    equivalentFn (fun s => s)
      (fun n =>
        if n = "x" then some { flags := 9, canonical := "lin_rec709_scene" }
        else if n = "y" then some { flags := 9, canonical := "" }
        else none)
      "x" "y" = true :=
  c6_amended (fun s => s)
    (fun n =>
      if n = "x" then some { flags := 9, canonical := "lin_rec709_scene" }
      else if n = "y" then some { flags := 9, canonical := "" }
      else none)
    "x" "y" { flags := 9, canonical := "lin_rec709_scene" }
    { flags := 9, canonical := "" }
    (by decide) (by decide) (by decide) (by decide)
    (by decide) (by decide) (by decide) (by decide)

/-- Claim C7, counterexample: at an alpha exactly equal to the smallest
positive normalized float value (the guard threshold fltmin), the
unpremultiply step DOES divide the color channels by alpha — a pixel
with red channel 1 comes out with red channel 2 to the power 126 — so
color channels are not left unchanged for alpha at the threshold, only
strictly below it. -/
theorem c7_counterexample :
    (unpremultStep { r := 1, g := 0, b := 0, a := fltmin }).1.r = 2 ^ 126
    ∧ (2 : ℚ) ^ 126 ≠ 1 := by
  constructor
  · unfold unpremultStep
    rw [if_pos le_rfl]
    show (1 : ℚ) / fltmin = 2 ^ 126
    rw [fltmin]
    norm_num
  · norm_num

/-- Claim C7 (amended): in the unpremultiply/premultiply bracketing, for
every pixel whose alpha is STRICTLY below the smallest positive
normalized float value, the unpremultiply step (in both the generic and
the specialized float-RGBA kernel) and the matching premultiply step
leave the pixel unchanged, regardless of the transform applied between
them; division by alpha occurs for alpha at or above that threshold. -/
theorem c7_amended (p q p2 : Pix) (hp : p.a < fltmin) (hp2 : fltmin ≤ p2.a) :
    (unpremultStep p).1 = p
    ∧ (unpremultStepRGBA p).1 = p
    ∧ premultStep q p.a = q
    ∧ (unpremultStep p2).1.r = p2.r / p2.a := by
  have hlt : ¬ p.a ≥ fltmin := not_le.mpr hp
  refine ⟨?_, ?_, ?_, ?_⟩
  · unfold unpremultStep
    simp [hlt]
  · unfold unpremultStepRGBA
    simp [hlt]
  · unfold premultStep
    simp [hlt]
  · unfold unpremultStep
    simp [hp2]

/-- Claim C7 amended, witness: a fully transparent pixel (alpha 0) is
untouched by both bracketing steps, while an opaque pixel (alpha 1) is
divided by its alpha. -/
theorem c7_amended_witness :
    (unpremultStep { r := 3, g := 5, b := 7, a := 0 }).1
      = { r := 3, g := 5, b := 7, a := 0 }
    ∧ (unpremultStepRGBA { r := 3, g := 5, b := 7, a := 0 }).1
      = { r := 3, g := 5, b := 7, a := 0 }
    ∧ premultStep { r := 11, g := 13, b := 17, a := 19 }
        (Pix.a { r := 3, g := 5, b := 7, a := 0 })
      = { r := 11, g := 13, b := 17, a := 19 }
    ∧ (unpremultStep { r := 9, g := 0, b := 0, a := 1 }).1.r
      = Pix.r { r := 9, g := 0, b := 0, a := 1 }
        / Pix.a { r := 9, g := 0, b := 0, a := 1 } :=
  c7_amended { r := 3, g := 5, b := 7, a := 0 }
    { r := 11, g := 13, b := 17, a := 19 }
    { r := 9, g := 0, b := 0, a := 1 }
    (by rw [fltmin]; norm_num)
    (by rw [fltmin]; norm_num)

/-- Claim C8: for a processor reporting itself as the identity
(isNoOp), applying it in place (destination and source the same buffer)
performs no work and leaves the buffer unchanged, applying it into a
distinct destination produces an exact copy of the source, and both
calls return success. -/
theorem c8_noop_shortcircuit (p : Proc) (buf dst src : List ℚ)
    (h : p.isNoOp = true) :
    colorconvertDispatch (some p) true buf buf = (buf, true)
    ∧ colorconvertDispatch (some p) false dst src = (src, true) := by
  constructor
  · simp [colorconvertDispatch, h]
  · simp [colorconvertDispatch, h, modelCopy]

/-- Claim C8, witness: an identity processor applied to concrete
buffers. -/
theorem c8_noop_shortcircuit_witness :
    colorconvertDispatch
        (some { isNoOp := true, applyBuf := fun _ => [] }) true [1, 2] [1, 2]
      = ([1, 2], true)
    ∧ colorconvertDispatch
        (some { isNoOp := true, applyBuf := fun _ => [] }) false [9] [3, 4]
      = ([3, 4], true) :=
  c8_noop_shortcircuit { isNoOp := true, applyBuf := fun _ => [] }
    [1, 2] [9] [3, 4] rfl

/-- Claim C9: get_cicp("srgb_rec709_display") returns the 4-integer code
1, 13, 1, 1 (Rec709 primaries, sRGB transfer, BT.709 matrix, full
range): the interop id resolves to "srgb_rec709_display" itself (the
name is an interop identities config space, not a live config space) and
the static table stores exactly that code for it. -/
theorem c9_cicp_srgb_display :
    get_cicp defaultCicpState "srgb_rec709_display" = some [1, 13, 1, 1]
    ∧ getColorInteropId defaultCicpState "srgb_rec709_display"
      = "srgb_rec709_display" := by
  constructor
  · rfl
  · rfl

/-- Claim C10: in the generic pixel kernel's store phase, with
destination and source the same buffer, channels beyond the processed
(at most 4) ones keep their prior value untouched; with distinct buffers
and a region reaching beyond the processed channels, each such leftover
destination channel is written 0.5 plus 10 times the corresponding
source channel value rather than a verbatim copy. -/
theorem c10_leftover_channels (nchannels chend : Nat)
    (transformed srcPix dstOld : Nat → ℚ) (c : Nat)
    (h1 : min 4 nchannels ≤ c) (h2 : c < chend) :
    kernelStorePixel (min 4 nchannels) chend true transformed srcPix dstOld c
      = dstOld c
    ∧ kernelStorePixel (min 4 nchannels) chend false transformed srcPix dstOld c
      = 1 / 2 + 10 * srcPix c := by
  have hc : ¬ c < min 4 nchannels := Nat.not_lt.mpr h1
  constructor
  · simp [kernelStorePixel, hc]
  · simp [kernelStorePixel, hc, h2]

/-- Claim C10, witness: channel 4 of a 5-channel region over a 4-channel
processed prefix. -/
theorem c10_leftover_channels_witness :
    kernelStorePixel (min 4 4) 5 true (fun _ => 0) (fun _ => 3) (fun _ => 7) 4
      = (fun _ : Nat => (7 : ℚ)) 4
    ∧ kernelStorePixel (min 4 4) 5 false (fun _ => 0) (fun _ => 3) (fun _ => 7) 4
      = 1 / 2 + 10 * (fun _ : Nat => (3 : ℚ)) 4 :=
  c10_leftover_channels 4 5 (fun _ => 0) (fun _ => 3) (fun _ => 7) 4
    (by decide) (by decide)

end OIIOColor
